import Mathlib

/-! Verification development for the cardboard head-tracking orchestrator
(src/sdk/head_tracker.cc).  Floating-point scalars (double/float) are
modelled by real numbers and int64_t timestamps by integers.  The external
collaborators that are not part of src/ (the rotation/vector algebra of
util/rotation.h, the RotationData/PositionData ring buffers, the
SensorFusionEkf filter and the neck model) are modelled from the
specification: the filter is represented by the log of mutating calls made
to it, with its two queries passed as parameters of GetPose, and the neck
model is an arbitrary function parameter. -/

namespace Cardboard

noncomputable section

/-- Three-component vector; models cardboard::Vector3 and the float[3]
position output. -/
@[ext]
structure Vec3 where
  x : ℝ
  y : ℝ
  z : ℝ

namespace Vec3

/-- Models Vector3::Zero(). -/
def zero : Vec3 := ⟨0, 0, 0⟩

/-- Componentwise addition; models the += loop in GetPose's stale branch. -/
def add (a b : Vec3) : Vec3 := ⟨a.x + b.x, a.y + b.y, a.z + b.z⟩

/-- Componentwise subtraction. -/
def sub (a b : Vec3) : Vec3 := ⟨a.x - b.x, a.y - b.y, a.z - b.z⟩

/-- Scalar multiple. -/
def scale (c : ℝ) (a : Vec3) : Vec3 := ⟨c * a.x, c * a.y, c * a.z⟩

instance : Add Vec3 := ⟨add⟩

instance : Inhabited Vec3 := ⟨zero⟩

/-- Addition unfolds componentwise. -/
@[simp]
theorem add_def (a b : Vec3) : a + b = ⟨a.x + b.x, a.y + b.y, a.z + b.z⟩ := rfl

end Vec3

/-- Quaternion with components in the order (x, y, z, w); models
Rotation::QuaternionType = Vector4 and the float[4] orientation output. -/
@[ext]
structure Quat where
  x : ℝ
  y : ℝ
  z : ℝ
  w : ℝ

namespace Quat

/-- The identity rotation quaternion; models Rotation::Identity() and the
default-constructed Rotation. -/
def one : Quat := ⟨0, 0, 0, 1⟩

/-- The zero quaternion (not a rotation). -/
def zeroQ : Quat := ⟨0, 0, 0, 0⟩

/-- Hamilton product; models rotation composition (Rotation operator*).
The convention is fixed by the comments of head_tracker.cc: with this
product, FromYawPitchRoll(-pi/2, 0, -pi/2) as defined below evaluates to
the quaternion (0.5, -0.5, -0.5, 0.5) documented at line 55. -/
def mul (a b : Quat) : Quat :=
  ⟨a.w * b.x + a.x * b.w + a.y * b.z - a.z * b.y,
   a.w * b.y - a.x * b.z + a.y * b.w + a.z * b.x,
   a.w * b.z + a.x * b.y - a.y * b.x + a.z * b.w,
   a.w * b.w - a.x * b.x - a.y * b.y - a.z * b.z⟩

instance : Mul Quat := ⟨mul⟩

/-- Multiplication unfolds to the Hamilton product. -/
@[simp]
theorem mul_def (a b : Quat) : a * b = mul a b := rfl

/-- Componentwise negation; both q and -q encode the same element of
SO(3) (unit quaternions double-cover the rotations). -/
def neg (a : Quat) : Quat := ⟨-a.x, -a.y, -a.z, -a.w⟩

/-- Models Rotation unary minus, the inverse rotation.  Modelled from the
spec: "inverse is implemented as negation of the rotation (quaternion
conjugate semantics)". -/
def conjugate (a : Quat) : Quat := ⟨-a.x, -a.y, -a.z, a.w⟩

/-- Euclidean inner product of two quaternions. -/
def dot (a b : Quat) : ℝ := a.x * b.x + a.y * b.y + a.z * b.z + a.w * b.w

/-- Squared Euclidean norm. -/
def normSq (a : Quat) : ℝ := a.x ^ 2 + a.y ^ 2 + a.z ^ 2 + a.w ^ 2

/-- Scalar multiple. -/
def scale (c : ℝ) (a : Quat) : Quat := ⟨c * a.x, c * a.y, c * a.z, c * a.w⟩

/-- Componentwise sum (used only inside interpolation). -/
def add (a b : Quat) : Quat := ⟨a.x + b.x, a.y + b.y, a.z + b.z, a.w + b.w⟩

/-- Modelled from the spec: rotation mutators keep their quaternion
normalized ("always normalized after any mutation"); util/rotation is not
part of src/.  Division by a zero norm follows the Lean junk-value
convention (1 / 0 = 0), so the zero quaternion normalizes to itself. -/
def normalize (a : Quat) : Quat := scale (1 / Real.sqrt (normSq a)) a

/-- Modelled from the spec: Rotation::FromQuaternion and
Rotation::SetQuaternion store a normalized copy of the given quaternion
(the comment at head_tracker.cc line 295 notes the normalization). -/
def fromQuaternion (a : Quat) : Quat := normalize a

/-- Equality as rotations: two unit quaternions encode the same element of
SO(3) exactly when they agree up to sign. -/
def rotEq (a b : Quat) : Prop := a = b ∨ a = neg b

instance : Inhabited Quat := ⟨one⟩

/-- Multiplying by the identity quaternion on the left. -/
theorem one_mulQ (a : Quat) : one * a = a := by
  ext <;> simp [one, mul]

/-- Multiplying by the identity quaternion on the right. -/
theorem mul_oneQ (a : Quat) : a * one = a := by
  ext <;> simp [one, mul]

/-- The squared norm is nonnegative. -/
theorem normSq_nonneg (a : Quat) : 0 ≤ normSq a := by
  unfold normSq; positivity

/-- Squared norm of a scalar multiple. -/
theorem normSq_scale (c : ℝ) (a : Quat) : normSq (scale c a) = c ^ 2 * normSq a := by
  unfold normSq scale; ring

/-- A quaternion that is already a unit quaternion is its own
normalization. -/
theorem normalize_of_normSq_one {a : Quat} (h : normSq a = 1) : normalize a = a := by
  unfold normalize
  rw [h, Real.sqrt_one]
  ext <;> simp [scale]

/-- Normalizing a nonzero quaternion yields a unit quaternion. -/
theorem normSq_normalize {a : Quat} (h : normSq a ≠ 0) : normSq (normalize a) = 1 := by
  unfold normalize
  rw [normSq_scale]
  have hnn := normSq_nonneg a
  rw [div_pow, one_pow, Real.sq_sqrt hnn]
  field_simp

end Quat

open Classical in
/-- Modelled from the spec (section 4.2): spherical linear interpolation
between two rotation samples; a fraction outside [0, 1] extrapolates along
the same arc.  Coincident samples (vanishing sine) return the first
sample. -/
def slerp (q1 q2 : Quat) (t : ℝ) : Quat :=
  let angle := Real.arccos (Quat.dot q1 q2)
  if Real.sin angle = 0 then q1
  else
    Quat.add (Quat.scale (Real.sin ((1 - t) * angle) / Real.sin angle) q1)
      (Quat.scale (Real.sin (t * angle) / Real.sin angle) q2)

/-- Fractional position of ts between t1 and t2, computed in real
arithmetic (modelling the double-precision division of the buffer code). -/
def timeFraction (ts t1 t2 : Int) : ℝ := ((ts - t1 : Int) : ℝ) / ((t2 - t1 : Int) : ℝ)

/-- One timestamped sample of a rotation or position buffer. -/
structure TimedSample (α : Type) where
  value : α
  timestamp : Int

/-- Modelled from the spec (sections 3 and 4.2): fixed-capacity ring buffer
of timestamped samples, kept newest first; RotationData and PositionData
are repository code that is not under src/. -/
structure RingBuffer (α : Type) where
  capacity : Nat
  samples : List (TimedSample α)

namespace RingBuffer

variable {α : Type}

/-- Modelled from the spec: AddSample inserts at the head and evicts the
tail on overflow. -/
def AddSample (b : RingBuffer α) (value : α) (timestamp : Int) : RingBuffer α :=
  { b with samples := (⟨value, timestamp⟩ :: b.samples).take b.capacity }

/-- Modelled from the spec: valid "once at least 2 samples have been
recorded since construction".  Both capacities are at least 2 and samples
are never removed without replacement, so the recorded count reaches 2
exactly when the current length does. -/
def IsValid (b : RingBuffer α) : Prop := 2 ≤ b.samples.length

instance (b : RingBuffer α) : Decidable b.IsValid := by
  unfold IsValid; infer_instance

/-- Latest (most recent) sample value; junk default when empty (the spec
lets callers guard with IsValid). -/
def GetLatestData [Inhabited α] (b : RingBuffer α) : α :=
  match b.samples with
  | [] => default
  | s :: _ => s.value

/-- Latest sample timestamp; junk 0 when empty. -/
def GetLatestTimestamp (b : RingBuffer α) : Int :=
  match b.samples with
  | [] => 0
  | s :: _ => s.timestamp

/-- Timestamp of the oldest stored sample; junk 0 when empty. -/
def oldestTimestamp (l : List (TimedSample α)) : Int :=
  (l.getLast?).elim 0 TimedSample.timestamp

/-- Bracketing-pair search for interpolation, walking the newest-first
sample list. -/
def interpSearch (ts : Int) : List (TimedSample Quat) → Quat
  | [] => Quat.one
  | [s] => s.value
  | s2 :: s1 :: rest =>
    if s1.timestamp ≤ ts then
      slerp s1.value s2.value (timeFraction ts s1.timestamp s2.timestamp)
    else interpSearch ts (s1 :: rest)

/-- Modelled from the spec (section 4.2): a timestamp between two stored
samples is spherically interpolated by its fractional position between
their timestamps; a timestamp outside the stored range is extrapolated
from the two most recent samples; with a single sample that sample is
returned unmodified. -/
def GetInterpolatedForTimeStamp (b : RingBuffer Quat) (ts : Int) : Quat :=
  match b.samples with
  | [] => Quat.one
  | [s] => s.value
  | s2 :: s1 :: rest =>
    if s1.timestamp ≤ ts ∨ ts < oldestTimestamp (s2 :: s1 :: rest) then
      slerp s1.value s2.value (timeFraction ts s1.timestamp s2.timestamp)
    else interpSearch ts (s1 :: rest)

/-- Modelled from the spec (section 4.2): position extrapolation is always
applied forward from the latest two samples and their rate of change,
regardless of whether ts lies within the stored range. -/
def GetExtrapolatedForTimeStamp (b : RingBuffer Vec3) (ts : Int) : Vec3 :=
  match b.samples with
  | [] => Vec3.zero
  | [s] => s.value
  | s2 :: s1 :: _ =>
    s2.value + Vec3.scale (((ts - s2.timestamp : Int) : ℝ) /
      ((s2.timestamp - s1.timestamp : Int) : ℝ)) (Vec3.sub s2.value s1.value)

end RingBuffer

/-- The four viewport orientations, in the indexing order documented at
head_tracker.cc lines 26-31; models CardboardViewportOrientation. -/
inductive CardboardViewportOrientation
  | landscapeLeft
  | landscapeRight
  | portrait
  | portraitUpsideDown
deriving DecidableEq

/-- Rotation about the x axis by an angle a, as the quaternion
(sin(a/2), 0, 0, cos(a/2)). -/
def rotX (a : ℝ) : Quat := ⟨Real.sin (a / 2), 0, 0, Real.cos (a / 2)⟩

/-- Rotation about the y axis by an angle a. -/
def rotY (a : ℝ) : Quat := ⟨0, Real.sin (a / 2), 0, Real.cos (a / 2)⟩

/-- Rotation about the z axis by an angle a. -/
def rotZ (a : ℝ) : Quat := ⟨0, 0, Real.sin (a / 2), Real.cos (a / 2)⟩

/-- Modelled from the spec (util/rotation.h is external): FromYawPitchRoll
composes the axis rotations about y (yaw), x (pitch) and z (roll).  The
convention is pinned down by the source comments: this definition
reproduces every quaternion documented alongside a FromYawPitchRoll call
in head_tracker.cc lines 51-68. -/
def fromYawPitchRoll (yaw pitch roll : ℝ) : Quat := rotY yaw * rotX pitch * rotZ roll

/-- Sensor-to-display rotation per viewport orientation (head_tracker.cc
lines 32-49); the double literals 0.7071067811865476 are modelled by the
exact value sqrt 2 / 2, as the source comments equate each entry with the
corresponding closed-form axis-angle rotation. -/
def sensorToDisplayRotations (v : CardboardViewportOrientation) : Quat :=
  match v with
  | .landscapeLeft => Quat.fromQuaternion ⟨0, 0, Real.sqrt 2 / 2, Real.sqrt 2 / 2⟩
  | .landscapeRight => Quat.fromQuaternion ⟨0, 0, -(Real.sqrt 2 / 2), Real.sqrt 2 / 2⟩
  | .portrait => Quat.fromQuaternion ⟨0, 0, 0, 1⟩
  | .portraitUpsideDown => Quat.fromQuaternion ⟨0, 0, 1, 0⟩

/-- EKF-space to head-tracker-space rotation per viewport orientation
(head_tracker.cc lines 51-68). -/
def ekfToHeadTrackerRotations (v : CardboardViewportOrientation) : Quat :=
  match v with
  | .landscapeLeft => Quat.fromQuaternion ⟨0.5, -0.5, -0.5, 0.5⟩
  | .landscapeRight => Quat.fromQuaternion ⟨0.5, 0.5, 0.5, 0.5⟩
  | .portrait => Quat.fromQuaternion ⟨Real.sqrt 2 / 2, 0, 0, Real.sqrt 2 / 2⟩
  | .portraitUpsideDown => Quat.fromQuaternion ⟨0, -(Real.sqrt 2 / 2), -(Real.sqrt 2 / 2), 0⟩

/-- Viewport-change compensation table (head_tracker.cc lines 92-114):
rows are the current viewport orientation, columns the new one; the
diagonal is Rotation::Identity() and the off-diagonal entries are the
pure-roll rotations FromYawPitchRoll(0, 0, angle) from the source. -/
def viewportChangeRotationCompensation
    (cur new : CardboardViewportOrientation) : Quat :=
  match cur, new with
  | .landscapeLeft, .landscapeLeft => Quat.one
  | .landscapeLeft, .landscapeRight => fromYawPitchRoll 0 0 Real.pi
  | .landscapeLeft, .portrait => fromYawPitchRoll 0 0 (-(Real.pi / 2))
  | .landscapeLeft, .portraitUpsideDown => fromYawPitchRoll 0 0 (Real.pi / 2)
  | .landscapeRight, .landscapeLeft => fromYawPitchRoll 0 0 Real.pi
  | .landscapeRight, .landscapeRight => Quat.one
  | .landscapeRight, .portrait => fromYawPitchRoll 0 0 (Real.pi / 2)
  | .landscapeRight, .portraitUpsideDown => fromYawPitchRoll 0 0 (-(Real.pi / 2))
  | .portrait, .landscapeLeft => fromYawPitchRoll 0 0 (Real.pi / 2)
  | .portrait, .landscapeRight => fromYawPitchRoll 0 0 (-(Real.pi / 2))
  | .portrait, .portrait => Quat.one
  | .portrait, .portraitUpsideDown => fromYawPitchRoll 0 0 Real.pi
  | .portraitUpsideDown, .landscapeLeft => fromYawPitchRoll 0 0 (-(Real.pi / 2))
  | .portraitUpsideDown, .landscapeRight => fromYawPitchRoll 0 0 (Real.pi / 2)
  | .portraitUpsideDown, .portrait => fromYawPitchRoll 0 0 Real.pi
  | .portraitUpsideDown, .portraitUpsideDown => Quat.one

/-- Timestamped gyroscope sample (sensor types live outside src/; a sample
carries two clock fields and the angular-velocity vector). -/
structure GyroscopeData where
  system_timestamp : Int
  sensor_timestamp_ns : Int
  data : Vec3

/-- Timestamped accelerometer sample. -/
structure AccelerometerData where
  system_timestamp : Int
  sensor_timestamp_ns : Int
  data : Vec3

/-- Latest raw filter state, as returned by
SensorFusionEkf::GetLatestRotationState; only its timestamp is consumed by
head_tracker.cc. -/
structure RotationState where
  timestamp : Int
  sensor_from_start_rotation : Quat

/-- One mutating call made on the external SensorFusionEkf; the filter is
out of scope per the spec and is modelled by the log of these calls. -/
inductive EkfEvent
  | processAccelerometerSample (event : AccelerometerData)
  | processGyroscopeSample (event : GyroscopeData)
  | reset
  | rotateSensorSpaceToStartSpaceTransformation (rotation : Quat)

/-- Rotation ring-buffer capacity (head_tracker.cc line 117). -/
def rotation_samples : Nat := 10

/-- Position ring-buffer capacity (head_tracker.cc line 118). -/
def position_samples : Nat := 3

/-- Freshness threshold in nanoseconds (head_tracker.cc line 119). -/
def max6DoFTimeDifference : Int := 200000000

/-- State of the head-tracking orchestrator (the fields of class
HeadTracker).  The sensor event producers are modelled by their polling
flags, the filter by its call log. -/
structure HeadTracker where
  is_tracking : Bool
  ekf : List EkfEvent
  latest_gyroscope_data : GyroscopeData
  accel_polling : Bool
  gyro_polling : Bool
  rotation_data : RingBuffer Quat
  position_data : RingBuffer Vec3
  difference_to_6DoF : Quat
  viewport_orientation : CardboardViewportOrientation
  is_viewport_orientation_initialized : Bool

namespace HeadTracker

/-- Constructor state (head_tracker.cc lines 121-137).  difference_to_6DoF_
and viewport_orientation_ are default-initialized: the default Rotation is
the identity, and the viewport default is arbitrary (it is guarded by the
initialized flag), taken here to be landscape left. -/
def init : HeadTracker :=
  { is_tracking := false
    ekf := []
    latest_gyroscope_data := ⟨0, 0, Vec3.zero⟩
    accel_polling := false
    gyro_polling := false
    rotation_data := ⟨rotation_samples, []⟩
    position_data := ⟨position_samples, []⟩
    difference_to_6DoF := Quat.one
    viewport_orientation := .landscapeLeft
    is_viewport_orientation_initialized := false }

/-- HeadTracker::RegisterCallbacks (lines 251-254). -/
def RegisterCallbacks (h : HeadTracker) : HeadTracker :=
  { h with accel_polling := true, gyro_polling := true }

/-- HeadTracker::UnregisterCallbacks (lines 256-259). -/
def UnregisterCallbacks (h : HeadTracker) : HeadTracker :=
  { h with accel_polling := false, gyro_polling := false }

/-- HeadTracker::Resume (lines 158-161). -/
def Resume (h : HeadTracker) : HeadTracker :=
  ({ h with is_tracking := true }).RegisterCallbacks

/-- HeadTracker::OnAccelerometerData (lines 261-266): no-op unless
tracking, otherwise forwards the sample to the filter. -/
def OnAccelerometerData (h : HeadTracker) (event : AccelerometerData) : HeadTracker :=
  if h.is_tracking then
    { h with ekf := EkfEvent.processAccelerometerSample event :: h.ekf }
  else h

/-- HeadTracker::OnGyroscopeData (lines 268-274): no-op unless tracking,
otherwise caches the sample and forwards it to the filter. -/
def OnGyroscopeData (h : HeadTracker) (event : GyroscopeData) : HeadTracker :=
  if h.is_tracking then
    { h with latest_gyroscope_data := event,
             ekf := EkfEvent.processGyroscopeSample event :: h.ekf }
  else h

/-- HeadTracker::Pause (lines 141-156): no-op if already paused; otherwise
unregisters the producers, feeds a copy of the latest gyroscope sample
with zeroed angular velocity through OnGyroscopeData, then clears the
tracking flag. -/
def Pause (h : HeadTracker) : HeadTracker :=
  if h.is_tracking then
    let h1 := h.UnregisterCallbacks
    let event := { h1.latest_gyroscope_data with data := Vec3.zero }
    let h2 := h1.OnGyroscopeData event
    { h2 with is_tracking := false }
  else h

/-- HeadTracker::Recenter (lines 247-249): resets the sensor-fusion
filter and nothing else. -/
def Recenter (h : HeadTracker) : HeadTracker :=
  { h with ekf := EkfEvent.reset :: h.ekf }

/-- HeadTracker::GetRotation (lines 301-313): sensor-to-display rotation
times the filter's predicted rotation times the EKF-to-tracker rotation.
The filter query PredictRotation is a function parameter. -/
def GetRotation (predictRotation : Int → Quat)
    (viewport_orientation : CardboardViewportOrientation) (timestamp_ns : Int) : Quat :=
  sensorToDisplayRotations viewport_orientation * predictRotation timestamp_ns *
    ekfToHeadTrackerRotations viewport_orientation

/-- The freshness guard of GetPose (line 210): the position buffer is
valid and the latest raw filter-state timestamp minus the buffer's latest
timestamp is strictly below max6DoFTimeDifference. -/
def sixDoFFresh (latestRotationStateTimestamp : Int)
    (position_data : RingBuffer Vec3) : Prop :=
  position_data.IsValid ∧
    latestRotationStateTimestamp - position_data.GetLatestTimestamp < max6DoFTimeDifference

instance (t : Int) (pd : RingBuffer Vec3) : Decidable (sixDoFFresh t pd) := by
  unfold sixDoFFresh; infer_instance

/-- HeadTracker::AddSixDoFData (lines 277-298): no-op unless tracking;
records the position sample; when both buffers are valid, recomputes the
drift-correction quaternion from the interpolated inertial rotation and
the yaw-plane part of the external orientation, zeroing the x and z
components before the normalizing SetQuaternion call. -/
def AddSixDoFData (h : HeadTracker) (timestamp_ns : Int) (pos : Vec3)
    (orientation : Quat) : HeadTracker :=
  if h.is_tracking then
    let pd := h.position_data.AddSample pos timestamp_ns
    let h1 := { h with position_data := pd }
    if pd.IsValid ∧ h1.rotation_data.IsValid then
      let gyroAtTimeOfSixDoF :=
        Quat.fromQuaternion (h1.rotation_data.GetInterpolatedForTimeStamp timestamp_ns)
      let sixDoFRotation := Quat.fromQuaternion ⟨0, orientation.y, 0, orientation.w⟩
      let difference := gyroAtTimeOfSixDoF * Quat.conjugate sixDoFRotation
      let diffQ : Quat := ⟨0, difference.y, 0, difference.w⟩
      { h1 with difference_to_6DoF := Quat.normalize diffQ }
    else h1
  else h

/-- HeadTracker::GetPose (lines 163-245).  The filter queries
GetLatestRotationState and PredictRotation, and the external
ApplyNeckModel function, are parameters; the result is the state after
the call together with the written out_position and out_orientation. -/
def GetPose (h : HeadTracker) (latest_rotation_state : RotationState)
    (predictRotation : Int → Quat) (applyNeckModel : Quat → ℝ → Vec3)
    (timestamp_ns : Int) (viewport_orientation : CardboardViewportOrientation) :
    HeadTracker × Vec3 × Quat :=
  let rotation := GetRotation predictRotation viewport_orientation timestamp_ns
  let orientation := rotation
  let h1 :=
    if h.is_viewport_orientation_initialized ∧
        viewport_orientation ≠ h.viewport_orientation then
      { h with ekf := (EkfEvent.rotateSensorSpaceToStartSpaceTransformation
          (viewportChangeRotationCompensation h.viewport_orientation
            viewport_orientation)) :: h.ekf }
    else h
  let h2 := { h1 with viewport_orientation := viewport_orientation,
                      is_viewport_orientation_initialized := true }
  let h3 := { h2 with rotation_data := h2.rotation_data.AddSample orientation timestamp_ns }
  (h3,
   if sixDoFFresh latest_rotation_state.timestamp h3.position_data then
     h3.position_data.GetExtrapolatedForTimeStamp timestamp_ns
   else
     applyNeckModel orientation 1 +
       (if h3.position_data.IsValid then h3.position_data.GetLatestData else Vec3.zero),
   if sixDoFFresh latest_rotation_state.timestamp h3.position_data then
     orientation * Quat.conjugate h3.difference_to_6DoF
   else orientation)

end HeadTracker

/-- The orchestrator states reachable from the constructor through the
public operations, with arbitrary filter responses and inputs. -/
inductive Reachable : HeadTracker → Prop
  | init : Reachable HeadTracker.init
  | resume {h} : Reachable h → Reachable h.Resume
  | pause {h} : Reachable h → Reachable h.Pause
  | recenter {h} : Reachable h → Reachable h.Recenter
  | accel {h} (event : AccelerometerData) :
      Reachable h → Reachable (h.OnAccelerometerData event)
  | gyro {h} (event : GyroscopeData) :
      Reachable h → Reachable (h.OnGyroscopeData event)
  | addSixDoF {h} (timestamp_ns : Int) (pos : Vec3) (orientation : Quat) :
      Reachable h → Reachable (h.AddSixDoFData timestamp_ns pos orientation)
  | getPose {h} (latest : RotationState) (predictRotation : Int → Quat)
      (applyNeckModel : Quat → ℝ → Vec3) (timestamp_ns : Int)
      (viewport_orientation : CardboardViewportOrientation) :
      Reachable h →
      Reachable (h.GetPose latest predictRotation applyNeckModel
        timestamp_ns viewport_orientation).1

/-- Canonical form of GetPose: the state after the call with all record
updates flattened, together with the two outputs. -/
theorem HeadTracker.GetPose_eq (h : HeadTracker) (latest : RotationState)
    (pr : Int → Quat) (anm : Quat → ℝ → Vec3) (ts : Int)
    (v : CardboardViewportOrientation) :
    h.GetPose latest pr anm ts v =
      ({ h with
          ekf := if h.is_viewport_orientation_initialized ∧ v ≠ h.viewport_orientation then
              (EkfEvent.rotateSensorSpaceToStartSpaceTransformation
                (viewportChangeRotationCompensation h.viewport_orientation v)) :: h.ekf
            else h.ekf,
          viewport_orientation := v,
          is_viewport_orientation_initialized := true,
          rotation_data := h.rotation_data.AddSample (GetRotation pr v ts) ts },
       if sixDoFFresh latest.timestamp h.position_data then
         h.position_data.GetExtrapolatedForTimeStamp ts
       else
         anm (GetRotation pr v ts) 1 +
           (if h.position_data.IsValid then h.position_data.GetLatestData else Vec3.zero),
       if sixDoFFresh latest.timestamp h.position_data then
         GetRotation pr v ts * Quat.conjugate h.difference_to_6DoF
       else GetRotation pr v ts) := by
  unfold GetPose
  by_cases hc : h.is_viewport_orientation_initialized ∧ v ≠ h.viewport_orientation
  · simp only [if_pos hc]
  · simp only [if_neg hc]

/-- C8: Recenter invokes only the sensor-fusion filter's reset; the
rotation and position ring buffers, the drift-correction quaternion, the
tracking flag, the stored viewport orientation (with its initialized
flag), the cached gyroscope sample and the producer subscriptions are all
unchanged. -/
theorem recenter_only_resets_filter (h : HeadTracker) :
    h.Recenter.ekf = EkfEvent.reset :: h.ekf ∧
    h.Recenter.rotation_data = h.rotation_data ∧
    h.Recenter.position_data = h.position_data ∧
    h.Recenter.difference_to_6DoF = h.difference_to_6DoF ∧
    h.Recenter.is_tracking = h.is_tracking ∧
    h.Recenter.viewport_orientation = h.viewport_orientation ∧
    h.Recenter.is_viewport_orientation_initialized =
      h.is_viewport_orientation_initialized ∧
    h.Recenter.latest_gyroscope_data = h.latest_gyroscope_data ∧
    h.Recenter.accel_polling = h.accel_polling ∧
    h.Recenter.gyro_polling = h.gyro_polling :=
  ⟨rfl, rfl, rfl, rfl, rfl, rfl, rfl, rfl, rfl, rfl⟩

/-- C6: for every GetPose call the display rotation is
SensorToDisplayRotations()[v] * PredictRotation(t) *
EkfToHeadTrackerRotations()[v], in that order, and exactly this rotation's
quaternion is the sample recorded with timestamp t into the rotation ring
buffer. -/
theorem display_rotation_composed_and_recorded (h : HeadTracker)
    (latest : RotationState) (pr : Int → Quat) (anm : Quat → ℝ → Vec3)
    (ts : Int) (v : CardboardViewportOrientation) :
    HeadTracker.GetRotation pr v ts =
      sensorToDisplayRotations v * pr ts * ekfToHeadTrackerRotations v ∧
    ((h.GetPose latest pr anm ts v).1).rotation_data =
      h.rotation_data.AddSample (HeadTracker.GetRotation pr v ts) ts := by
  refine ⟨rfl, ?_⟩
  rw [HeadTracker.GetPose_eq]

/-- C9: GetPose is not guarded by the tracking flag: in every state,
including when tracking is false, it appends the display-rotation sample
to the rotation ring buffer; by contrast OnAccelerometerData,
OnGyroscopeData and AddSixDoFData leave the state entirely unchanged when
tracking is false. -/
theorem get_pose_unguarded_by_tracking (h : HeadTracker)
    (latest : RotationState) (pr : Int → Quat) (anm : Quat → ℝ → Vec3)
    (ts : Int) (v : CardboardViewportOrientation)
    (eventA : AccelerometerData) (eventG : GyroscopeData)
    (ts2 : Int) (pos : Vec3) (orientation : Quat) :
    ((h.GetPose latest pr anm ts v).1).rotation_data =
      h.rotation_data.AddSample (HeadTracker.GetRotation pr v ts) ts ∧
    (h.is_tracking = false →
      h.OnAccelerometerData eventA = h ∧
      h.OnGyroscopeData eventG = h ∧
      h.AddSixDoFData ts2 pos orientation = h) := by
  constructor
  · rw [HeadTracker.GetPose_eq]
  · intro hnt
    exact ⟨by simp [HeadTracker.OnAccelerometerData, hnt],
      by simp [HeadTracker.OnGyroscopeData, hnt],
      by simp [HeadTracker.AddSixDoFData, hnt]⟩

/-- Witness for C9 at the constructor state, where tracking is false. -/
theorem get_pose_unguarded_by_tracking_witness :
    HeadTracker.init.is_tracking = false ∧
    (HeadTracker.init.OnAccelerometerData ⟨1, 2, ⟨3, 4, 5⟩⟩ = HeadTracker.init ∧
     HeadTracker.init.OnGyroscopeData ⟨1, 2, ⟨3, 4, 5⟩⟩ = HeadTracker.init ∧
     HeadTracker.init.AddSixDoFData 7 ⟨1, 2, 3⟩ Quat.one = HeadTracker.init) :=
  ⟨rfl,
   (get_pose_unguarded_by_tracking HeadTracker.init ⟨0, Quat.one⟩
      (fun _ => Quat.one) (fun _ _ => Vec3.zero) 0 .portrait
      ⟨1, 2, ⟨3, 4, 5⟩⟩ ⟨1, 2, ⟨3, 4, 5⟩⟩ 7 ⟨1, 2, 3⟩ Quat.one).2 rfl⟩

/-- C10: when tracking, Pause synthesizes a gyroscope sample that agrees
with the most recent cached one in every field except the
angular-velocity vector, which is zeroed; it is forwarded to the filter
through OnGyroscopeData while tracking is still true, so afterwards the
cached latest gyroscope sample itself has zero angular velocity.  The
constructor's initial cached sample has timestamp 0 and zero velocity. -/
theorem pause_synthesizes_zero_velocity_sample (h : HeadTracker) :
    HeadTracker.init.latest_gyroscope_data = ⟨0, 0, Vec3.zero⟩ ∧
    (h.is_tracking = true →
      h.Pause.latest_gyroscope_data =
        { h.latest_gyroscope_data with data := Vec3.zero } ∧
      h.Pause.is_tracking = false ∧
      h.Pause.ekf = EkfEvent.processGyroscopeSample
        { h.latest_gyroscope_data with data := Vec3.zero } :: h.ekf ∧
      h.Pause.latest_gyroscope_data.data = Vec3.zero ∧
      h.Pause.latest_gyroscope_data.system_timestamp =
        h.latest_gyroscope_data.system_timestamp ∧
      h.Pause.latest_gyroscope_data.sensor_timestamp_ns =
        h.latest_gyroscope_data.sensor_timestamp_ns) := by
  refine ⟨rfl, fun ht => ?_⟩
  simp [HeadTracker.Pause, HeadTracker.OnGyroscopeData,
    HeadTracker.UnregisterCallbacks, ht]

/-- Witness for C10 at a concrete tracking state with a cached sample. -/
theorem pause_synthesizes_zero_velocity_sample_witness :
    ((HeadTracker.init.Resume.OnGyroscopeData ⟨8, 9, ⟨1, 2, 3⟩⟩).is_tracking = true) ∧
    ((HeadTracker.init.Resume.OnGyroscopeData ⟨8, 9, ⟨1, 2, 3⟩⟩).Pause.latest_gyroscope_data =
      { (HeadTracker.init.Resume.OnGyroscopeData ⟨8, 9, ⟨1, 2, 3⟩⟩).latest_gyroscope_data with
          data := Vec3.zero } ∧
     (HeadTracker.init.Resume.OnGyroscopeData ⟨8, 9, ⟨1, 2, 3⟩⟩).Pause.is_tracking = false ∧
     (HeadTracker.init.Resume.OnGyroscopeData ⟨8, 9, ⟨1, 2, 3⟩⟩).Pause.ekf =
       EkfEvent.processGyroscopeSample
         { (HeadTracker.init.Resume.OnGyroscopeData ⟨8, 9, ⟨1, 2, 3⟩⟩).latest_gyroscope_data with
             data := Vec3.zero } ::
         (HeadTracker.init.Resume.OnGyroscopeData ⟨8, 9, ⟨1, 2, 3⟩⟩).ekf ∧
     (HeadTracker.init.Resume.OnGyroscopeData ⟨8, 9, ⟨1, 2, 3⟩⟩).Pause.latest_gyroscope_data.data =
       Vec3.zero ∧
     (HeadTracker.init.Resume.OnGyroscopeData ⟨8, 9, ⟨1, 2, 3⟩⟩).Pause.latest_gyroscope_data.system_timestamp =
       (HeadTracker.init.Resume.OnGyroscopeData ⟨8, 9, ⟨1, 2, 3⟩⟩).latest_gyroscope_data.system_timestamp ∧
     (HeadTracker.init.Resume.OnGyroscopeData ⟨8, 9, ⟨1, 2, 3⟩⟩).Pause.latest_gyroscope_data.sensor_timestamp_ns =
       (HeadTracker.init.Resume.OnGyroscopeData ⟨8, 9, ⟨1, 2, 3⟩⟩).latest_gyroscope_data.sensor_timestamp_ns) :=
  ⟨rfl, (pause_synthesizes_zero_velocity_sample
          (HeadTracker.init.Resume.OnGyroscopeData ⟨8, 9, ⟨1, 2, 3⟩⟩)).2 rfl⟩

/-- C2 counterexample: in the constructor state the tracking flag is
false and a call to AddSixDoFData is a complete no-op, so the position
sample is not recorded into the position buffer. -/
theorem add_six_dof_ignored_when_not_tracking :
    HeadTracker.init.is_tracking = false ∧
    HeadTracker.init.AddSixDoFData 5 ⟨1, 2, 3⟩ Quat.one = HeadTracker.init ∧
    (HeadTracker.init.AddSixDoFData 5 ⟨1, 2, 3⟩ Quat.one).position_data.samples = [] := by
  refine ⟨rfl, ?_, ?_⟩ <;> simp [HeadTracker.AddSixDoFData, HeadTracker.init]

/-- C2 amended: AddSixDoFData records the position sample into the
position buffer whenever the tracking flag is true (in both
buffer-validity cases); when the tracking flag is false the call returns
immediately and changes nothing. -/
theorem add_six_dof_records_when_tracking (h : HeadTracker) (ts : Int)
    (pos : Vec3) (orientation : Quat) :
    (h.is_tracking = true →
      (h.AddSixDoFData ts pos orientation).position_data =
        h.position_data.AddSample pos ts) ∧
    (h.is_tracking = false → h.AddSixDoFData ts pos orientation = h) := by
  constructor
  · intro ht
    unfold HeadTracker.AddSixDoFData
    rw [if_pos ht]
    dsimp only
    split <;> rfl
  · intro hnt
    simp [HeadTracker.AddSixDoFData, hnt]

/-- Witness for C2's amended theorem in a tracking state. -/
theorem add_six_dof_records_when_tracking_witness :
    HeadTracker.init.Resume.is_tracking = true ∧
    (HeadTracker.init.Resume.AddSixDoFData 7 ⟨1, 2, 3⟩ Quat.one).position_data =
      HeadTracker.init.Resume.position_data.AddSample ⟨1, 2, 3⟩ 7 :=
  ⟨rfl, (add_six_dof_records_when_tracking HeadTracker.init.Resume 7
    ⟨1, 2, 3⟩ Quat.one).1 rfl⟩

/-- C1: the fresh/fused path of GetPose is taken exactly when the position
buffer is valid and the latest raw filter-state timestamp minus the
buffer's latest timestamp is strictly below 200000000 ns; a gap of
200000001 ns takes the stale path, a gap of 199999999 ns the fresh path;
on the fresh guard GetPose emits the fused outputs, otherwise the
uncorrected display rotation. -/
theorem freshness_threshold (h : HeadTracker) (latest : RotationState)
    (pr : Int → Quat) (anm : Quat → ℝ → Vec3) (ts : Int)
    (v : CardboardViewportOrientation) :
    (HeadTracker.sixDoFFresh latest.timestamp h.position_data ↔
      (h.position_data.IsValid ∧
        latest.timestamp - h.position_data.GetLatestTimestamp < 200000000)) ∧
    (latest.timestamp - h.position_data.GetLatestTimestamp = 200000001 →
      ¬ HeadTracker.sixDoFFresh latest.timestamp h.position_data) ∧
    (h.position_data.IsValid →
      latest.timestamp - h.position_data.GetLatestTimestamp = 199999999 →
      HeadTracker.sixDoFFresh latest.timestamp h.position_data) ∧
    (HeadTracker.sixDoFFresh latest.timestamp h.position_data →
      (h.GetPose latest pr anm ts v).2.2 =
        HeadTracker.GetRotation pr v ts * Quat.conjugate h.difference_to_6DoF ∧
      (h.GetPose latest pr anm ts v).2.1 =
        h.position_data.GetExtrapolatedForTimeStamp ts) ∧
    (¬ HeadTracker.sixDoFFresh latest.timestamp h.position_data →
      (h.GetPose latest pr anm ts v).2.2 = HeadTracker.GetRotation pr v ts) := by
  refine ⟨?_, ?_, ?_, ?_, ?_⟩
  · unfold HeadTracker.sixDoFFresh max6DoFTimeDifference
    exact Iff.rfl
  · intro hgap hfresh
    have := hfresh.2
    unfold max6DoFTimeDifference at this
    omega
  · intro hv hgap
    refine ⟨hv, ?_⟩
    unfold max6DoFTimeDifference
    omega
  · intro hfresh
    rw [HeadTracker.GetPose_eq]
    simp only [if_pos hfresh]
    exact ⟨trivial, trivial⟩
  · intro hstale
    rw [HeadTracker.GetPose_eq]
    simp only [if_neg hstale]

/-- Witness for C1 at a valid buffer with a gap of 199999999 ns. -/
theorem freshness_threshold_witness :
    (RingBuffer.IsValid (⟨3, [⟨⟨1, 2, 3⟩, 60⟩, ⟨⟨0, 0, 0⟩, 0⟩]⟩ : RingBuffer Vec3)) ∧
    ((200000059 : Int) -
      (⟨3, [⟨⟨1, 2, 3⟩, 60⟩, ⟨⟨0, 0, 0⟩, 0⟩]⟩ : RingBuffer Vec3).GetLatestTimestamp =
        199999999) ∧
    HeadTracker.sixDoFFresh 200000059
      (⟨3, [⟨⟨1, 2, 3⟩, 60⟩, ⟨⟨0, 0, 0⟩, 0⟩]⟩ : RingBuffer Vec3) := by
  have hv : RingBuffer.IsValid
      (⟨3, [⟨⟨1, 2, 3⟩, 60⟩, ⟨⟨0, 0, 0⟩, 0⟩]⟩ : RingBuffer Vec3) := by
    unfold RingBuffer.IsValid
    simp
  have hgap : (200000059 : Int) -
      (⟨3, [⟨⟨1, 2, 3⟩, 60⟩, ⟨⟨0, 0, 0⟩, 0⟩]⟩ : RingBuffer Vec3).GetLatestTimestamp =
        199999999 := by
    unfold RingBuffer.GetLatestTimestamp
    norm_num
  refine ⟨hv, hgap, ?_⟩
  exact (freshness_threshold
    { HeadTracker.init with
        position_data := ⟨3, [⟨⟨1, 2, 3⟩, 60⟩, ⟨⟨0, 0, 0⟩, 0⟩]⟩ }
    ⟨200000059, Quat.one⟩ (fun _ => Quat.one) (fun _ _ => Vec3.zero) 0
    .portrait).2.2.1 hv hgap

/-- C5: on the fresh path GetPose outputs the display rotation
right-multiplied by the inverse (conjugate) of the persistent
drift-correction quaternion, and the position buffer's extrapolated value
at the query timestamp. -/
theorem fresh_path_outputs (h : HeadTracker) (latest : RotationState)
    (pr : Int → Quat) (anm : Quat → ℝ → Vec3) (ts : Int)
    (v : CardboardViewportOrientation)
    (hfresh : HeadTracker.sixDoFFresh latest.timestamp h.position_data) :
    (h.GetPose latest pr anm ts v).2.2 =
      HeadTracker.GetRotation pr v ts * Quat.conjugate h.difference_to_6DoF ∧
    (h.GetPose latest pr anm ts v).2.1 =
      h.position_data.GetExtrapolatedForTimeStamp ts := by
  rw [HeadTracker.GetPose_eq]
  simp only [if_pos hfresh]
  exact ⟨trivial, trivial⟩

/-- Witness for C5 at a concrete fresh state. -/
theorem fresh_path_outputs_witness :
    HeadTracker.sixDoFFresh 100
      (⟨3, [⟨⟨1, 2, 3⟩, 60⟩, ⟨⟨0, 0, 0⟩, 0⟩]⟩ : RingBuffer Vec3) ∧
    (({ HeadTracker.init with
          position_data := ⟨3, [⟨⟨1, 2, 3⟩, 60⟩, ⟨⟨0, 0, 0⟩, 0⟩]⟩ }).GetPose
        ⟨100, Quat.one⟩ (fun _ => Quat.one) (fun _ _ => Vec3.zero) 120 .portrait).2.2 =
      HeadTracker.GetRotation (fun _ => Quat.one) .portrait 120 *
        Quat.conjugate Quat.one ∧
    (({ HeadTracker.init with
          position_data := ⟨3, [⟨⟨1, 2, 3⟩, 60⟩, ⟨⟨0, 0, 0⟩, 0⟩]⟩ }).GetPose
        ⟨100, Quat.one⟩ (fun _ => Quat.one) (fun _ _ => Vec3.zero) 120 .portrait).2.1 =
      (⟨3, [⟨⟨1, 2, 3⟩, 60⟩, ⟨⟨0, 0, 0⟩, 0⟩]⟩ : RingBuffer Vec3).GetExtrapolatedForTimeStamp 120 := by
  have hfresh : HeadTracker.sixDoFFresh 100
      (⟨3, [⟨⟨1, 2, 3⟩, 60⟩, ⟨⟨0, 0, 0⟩, 0⟩]⟩ : RingBuffer Vec3) := by
    constructor
    · unfold RingBuffer.IsValid
      simp
    · unfold RingBuffer.GetLatestTimestamp max6DoFTimeDifference
      norm_num
  exact ⟨hfresh, fresh_path_outputs
    { HeadTracker.init with
        position_data := ⟨3, [⟨⟨1, 2, 3⟩, 60⟩, ⟨⟨0, 0, 0⟩, 0⟩]⟩ }
    ⟨100, Quat.one⟩ (fun _ => Quat.one) (fun _ _ => Vec3.zero) 120 .portrait hfresh⟩

/-- Composition of two rotations about the z axis adds their angles. -/
theorem rotZ_mul (a b : ℝ) : rotZ a * rotZ b = rotZ (a + b) := by
  have h2 : (a + b) / 2 = a / 2 + b / 2 := by ring
  ext <;> simp [rotZ, Quat.mul, h2, Real.sin_add, Real.cos_add]
  ring

/-- With zero yaw and pitch, FromYawPitchRoll is the pure roll rotation
about the z axis. -/
theorem fromYawPitchRoll_roll (r : ℝ) : fromYawPitchRoll 0 0 r = rotZ r := by
  ext <;> simp [fromYawPitchRoll, rotY, rotX, rotZ, Quat.mul]

/-- The zero-angle z rotation is the identity quaternion. -/
theorem rotZ_zero : rotZ 0 = Quat.one := by
  ext <;> simp [rotZ, Quat.one]

/-- Round trip of the identity compensation entry. -/
theorem compensation_roundtrip_id : Quat.rotEq (Quat.one * Quat.one) Quat.one :=
  Or.inl (Quat.mul_oneQ Quat.one)

/-- Round trip of the two pi-roll compensation entries: the quaternion
product is minus one, which is the identity rotation. -/
theorem compensation_roundtrip_pi :
    Quat.rotEq (fromYawPitchRoll 0 0 Real.pi * fromYawPitchRoll 0 0 Real.pi)
      Quat.one := by
  rw [fromYawPitchRoll_roll, rotZ_mul]
  refine Or.inr ?_
  have h2 : (Real.pi + Real.pi) / 2 = Real.pi := by ring
  ext <;> simp [rotZ, Quat.one, Quat.neg, h2]

/-- Round trip of a quarter-roll followed by the opposite quarter-roll. -/
theorem compensation_roundtrip_half1 :
    Quat.rotEq (fromYawPitchRoll 0 0 (Real.pi / 2) *
      fromYawPitchRoll 0 0 (-(Real.pi / 2))) Quat.one := by
  rw [fromYawPitchRoll_roll, fromYawPitchRoll_roll, rotZ_mul]
  refine Or.inl ?_
  have h0 : Real.pi / 2 + -(Real.pi / 2) = 0 := by ring
  rw [h0, rotZ_zero]

/-- Round trip of the opposite quarter-roll followed by the quarter-roll. -/
theorem compensation_roundtrip_half2 :
    Quat.rotEq (fromYawPitchRoll 0 0 (-(Real.pi / 2)) *
      fromYawPitchRoll 0 0 (Real.pi / 2)) Quat.one := by
  rw [fromYawPitchRoll_roll, fromYawPitchRoll_roll, rotZ_mul]
  refine Or.inl ?_
  have h0 : -(Real.pi / 2) + Real.pi / 2 = 0 := by ring
  rw [h0, rotZ_zero]

/-- C7: for every pair of viewport orientations, composing the
compensation entry with its reverse entry gives the identity rotation
(equality in SO(3), that is quaternion equality up to sign), and every
diagonal entry is the identity. -/
theorem viewport_compensation_round_trip
    (a b : CardboardViewportOrientation) :
    Quat.rotEq (viewportChangeRotationCompensation a b *
      viewportChangeRotationCompensation b a) Quat.one ∧
    viewportChangeRotationCompensation a a = Quat.one := by
  constructor
  · cases a <;> cases b
    · exact compensation_roundtrip_id
    · exact compensation_roundtrip_pi
    · exact compensation_roundtrip_half2
    · exact compensation_roundtrip_half1
    · exact compensation_roundtrip_pi
    · exact compensation_roundtrip_id
    · exact compensation_roundtrip_half1
    · exact compensation_roundtrip_half2
    · exact compensation_roundtrip_half1
    · exact compensation_roundtrip_half2
    · exact compensation_roundtrip_id
    · exact compensation_roundtrip_pi
    · exact compensation_roundtrip_half2
    · exact compensation_roundtrip_half1
    · exact compensation_roundtrip_pi
    · exact compensation_roundtrip_id
  · cases a <;> rfl

/-- AddSixDoFData never changes the tracking flag. -/
theorem addSixDoF_is_tracking (h : HeadTracker) (ts : Int) (pos : Vec3)
    (orientation : Quat) :
    (h.AddSixDoFData ts pos orientation).is_tracking = h.is_tracking := by
  unfold HeadTracker.AddSixDoFData
  split
  · dsimp only
    split <;> rfl
  · rfl

/-- When tracking, AddSixDoFData records the position sample regardless of
the validity branch. -/
theorem addSixDoF_position_data_of_tracking (h : HeadTracker) (ts : Int)
    (pos : Vec3) (orientation : Quat) (ht : h.is_tracking = true) :
    (h.AddSixDoFData ts pos orientation).position_data =
      h.position_data.AddSample pos ts := by
  unfold HeadTracker.AddSixDoFData
  rw [if_pos ht]
  dsimp only
  split <;> rfl

/-- AddSixDoFData never changes the rotation buffer. -/
theorem addSixDoF_rotation_data (h : HeadTracker) (ts : Int) (pos : Vec3)
    (orientation : Quat) :
    (h.AddSixDoFData ts pos orientation).rotation_data = h.rotation_data := by
  unfold HeadTracker.AddSixDoFData
  split
  · dsimp only
    split <;> rfl
  · rfl

/-- State after one AddSixDoFData call on the freshly resumed tracker. -/
def c4State : HeadTracker :=
  HeadTracker.init.Resume.AddSixDoFData 0 ⟨1, 2, 3⟩ Quat.one

/-- C4 counterexample: after a single valid AddSixDoFData call the
position buffer holds one sample and is not yet valid, so a stale-path
GetPose outputs the bare neck-model position (here the constant zero
function) without the last recorded external position (1, 2, 3): the
degrade to "last known position plus neck model" does not apply after one
call. -/
theorem stale_degrade_one_sample_counterexample :
    c4State.position_data.samples = [⟨⟨1, 2, 3⟩, 0⟩] ∧
    (c4State.GetPose ⟨1000000000, Quat.one⟩ (fun _ => Quat.one)
      (fun _ _ => Vec3.zero) 1000000000 .portrait).2.1 = ⟨0, 0, 0⟩ ∧
    Vec3.zero + (⟨1, 2, 3⟩ : Vec3) = ⟨1, 2, 3⟩ ∧
    ((⟨0, 0, 0⟩ : Vec3)) ≠ (⟨1, 2, 3⟩ : Vec3) := by
  have hstate : c4State =
      { HeadTracker.init.Resume with
          position_data := ⟨position_samples, [⟨⟨1, 2, 3⟩, 0⟩]⟩ } := by
    unfold c4State HeadTracker.AddSixDoFData
    rw [if_pos (show HeadTracker.init.Resume.is_tracking = true from rfl)]
    dsimp only
    rw [if_neg ?hinv]
    case hinv =>
      intro hboth
      have := hboth.1
      unfold RingBuffer.IsValid at this
      simp [HeadTracker.Resume, HeadTracker.RegisterCallbacks, HeadTracker.init,
        RingBuffer.AddSample, position_samples] at this
    rfl
  refine ⟨by rw [hstate], ?_, ?_, ?_⟩
  · rw [hstate, HeadTracker.GetPose_eq]
    have hns : ¬ HeadTracker.sixDoFFresh 1000000000
        (⟨position_samples, [⟨⟨1, 2, 3⟩, 0⟩]⟩ : RingBuffer Vec3) := by
      intro hf
      have := hf.1
      unfold RingBuffer.IsValid at this
      simp at this
    have hnv : ¬ (⟨position_samples, [⟨⟨1, 2, 3⟩, 0⟩]⟩ : RingBuffer Vec3).IsValid := by
      unfold RingBuffer.IsValid
      simp
    simp only [if_neg hns, if_neg hnv]
    ext <;> simp [Vec3.zero]
  · ext <;> simp [Vec3.zero]
  · intro hcontra
    have := congrArg Vec3.x hcontra
    norm_num at this

/-- C4 amended: on the stale/absent path GetPose outputs the display
rotation unmodified and the neck-model position (scale 1.0), adding the
position buffer's latest recorded position as a constant offset exactly
when the buffer is valid; because validity needs at least two recorded
samples, the degrade to "last known position plus neck model" applies
after two valid AddSixDoFData calls followed by the freshness window
elapsing, not after one. -/
theorem stale_path_outputs (h : HeadTracker) (latest : RotationState)
    (pr : Int → Quat) (anm : Quat → ℝ → Vec3) (ts : Int)
    (v : CardboardViewportOrientation)
    (hstale : ¬ HeadTracker.sixDoFFresh latest.timestamp h.position_data) :
    (h.GetPose latest pr anm ts v).2.2 = HeadTracker.GetRotation pr v ts ∧
    (h.position_data.IsValid →
      (h.GetPose latest pr anm ts v).2.1 =
        anm (HeadTracker.GetRotation pr v ts) 1 + h.position_data.GetLatestData) ∧
    (¬ h.position_data.IsValid →
      (h.GetPose latest pr anm ts v).2.1 =
        anm (HeadTracker.GetRotation pr v ts) 1 + Vec3.zero) ∧
    (∀ (t1 t2 : Int) (p1 p2 : Vec3) (q1 q2 : Quat) (latest2 : RotationState),
      h.is_tracking = true →
      h.position_data.samples = [] →
      h.position_data.capacity = position_samples →
      ¬ HeadTracker.sixDoFFresh latest2.timestamp
          ((h.AddSixDoFData t1 p1 q1).AddSixDoFData t2 p2 q2).position_data →
      (((h.AddSixDoFData t1 p1 q1).AddSixDoFData t2 p2 q2).GetPose latest2
          pr anm ts v).2.1 =
        anm (HeadTracker.GetRotation pr v ts) 1 + p2) := by
  refine ⟨?_, ?_, ?_, ?_⟩
  · rw [HeadTracker.GetPose_eq]
    simp only [if_neg hstale]
  · intro hv
    rw [HeadTracker.GetPose_eq]
    simp only [if_neg hstale, if_pos hv]
  · intro hnv
    rw [HeadTracker.GetPose_eq]
    simp only [if_neg hstale, if_neg hnv]
  · intro t1 t2 p1 p2 q1 q2 latest2 ht hempty hcap hstale2
    have ht1 : (h.AddSixDoFData t1 p1 q1).is_tracking = true := by
      rw [addSixDoF_is_tracking]; exact ht
    have e2 : ((h.AddSixDoFData t1 p1 q1).AddSixDoFData t2 p2 q2).position_data =
        (h.position_data.AddSample p1 t1).AddSample p2 t2 := by
      rw [addSixDoF_position_data_of_tracking _ _ _ _ ht1,
        addSixDoF_position_data_of_tracking _ _ _ _ ht]
    have esamples : ((h.position_data.AddSample p1 t1).AddSample p2 t2).samples =
        [⟨p2, t2⟩, ⟨p1, t1⟩] := by
      simp [RingBuffer.AddSample, hempty, hcap, position_samples]
    have hvalid : ((h.AddSixDoFData t1 p1 q1).AddSixDoFData t2 p2 q2).position_data.IsValid := by
      rw [e2]
      unfold RingBuffer.IsValid
      rw [esamples]
      simp
    have hlatest : ((h.AddSixDoFData t1 p1 q1).AddSixDoFData t2 p2 q2).position_data.GetLatestData = p2 := by
      rw [e2]
      unfold RingBuffer.GetLatestData
      rw [esamples]
    rw [HeadTracker.GetPose_eq]
    simp only [if_neg hstale2, if_pos hvalid, hlatest]

/-- Witness for C4's amended theorem: a stale query against a two-sample
buffer adds the latest recorded position to the neck-model output. -/
theorem stale_path_outputs_witness :
    (¬ HeadTracker.sixDoFFresh 500000000
      ({ HeadTracker.init with position_data :=
          ⟨3, [⟨⟨1, 2, 3⟩, 60⟩, ⟨⟨0, 0, 0⟩, 0⟩]⟩ } : HeadTracker).position_data) ∧
    ({ HeadTracker.init with position_data :=
        ⟨3, [⟨⟨1, 2, 3⟩, 60⟩, ⟨⟨0, 0, 0⟩, 0⟩]⟩ } : HeadTracker).position_data.IsValid ∧
    (({ HeadTracker.init with position_data :=
        ⟨3, [⟨⟨1, 2, 3⟩, 60⟩, ⟨⟨0, 0, 0⟩, 0⟩]⟩ } : HeadTracker).GetPose
        ⟨500000000, Quat.one⟩ (fun _ => Quat.one) (fun _ _ => Vec3.zero)
        500000000 .portrait).2.1 =
      (fun (_ : Quat) (_ : ℝ) => Vec3.zero)
          (HeadTracker.GetRotation (fun _ => Quat.one) .portrait 500000000) 1 +
        (⟨3, [⟨⟨1, 2, 3⟩, 60⟩, ⟨⟨0, 0, 0⟩, 0⟩]⟩ : RingBuffer Vec3).GetLatestData := by
  have hstale : ¬ HeadTracker.sixDoFFresh 500000000
      (⟨3, [⟨⟨1, 2, 3⟩, 60⟩, ⟨⟨0, 0, 0⟩, 0⟩]⟩ : RingBuffer Vec3) := by
    intro hf
    have := hf.2
    rw [show (⟨3, [⟨⟨1, 2, 3⟩, 60⟩, ⟨⟨0, 0, 0⟩, 0⟩]⟩ :
      RingBuffer Vec3).GetLatestTimestamp = 60 from rfl] at this
    unfold max6DoFTimeDifference at this
    omega
  have hv : (⟨3, [⟨⟨1, 2, 3⟩, 60⟩, ⟨⟨0, 0, 0⟩, 0⟩]⟩ : RingBuffer Vec3).IsValid := by
    unfold RingBuffer.IsValid
    simp
  exact ⟨hstale, hv,
    ((stale_path_outputs
      { HeadTracker.init with position_data := ⟨3, [⟨⟨1, 2, 3⟩, 60⟩, ⟨⟨0, 0, 0⟩, 0⟩]⟩ }
      ⟨500000000, Quat.one⟩ (fun _ => Quat.one) (fun _ _ => Vec3.zero)
      500000000 .portrait hstale).2.1) hv⟩

/-- GetPose never changes the drift-correction quaternion. -/
theorem getPose_difference (h : HeadTracker) (latest : RotationState)
    (pr : Int → Quat) (anm : Quat → ℝ → Vec3) (ts : Int)
    (v : CardboardViewportOrientation) :
    ((h.GetPose latest pr anm ts v).1).difference_to_6DoF = h.difference_to_6DoF := by
  rw [HeadTracker.GetPose_eq]

/-- Resume never changes the drift-correction quaternion. -/
theorem resume_difference (h : HeadTracker) :
    h.Resume.difference_to_6DoF = h.difference_to_6DoF := rfl

/-- Pause never changes the drift-correction quaternion. -/
theorem pause_difference (h : HeadTracker) :
    h.Pause.difference_to_6DoF = h.difference_to_6DoF := by
  by_cases ht : h.is_tracking <;>
    simp [HeadTracker.Pause, HeadTracker.OnGyroscopeData,
      HeadTracker.UnregisterCallbacks, ht]

/-- Recenter never changes the drift-correction quaternion. -/
theorem recenter_difference (h : HeadTracker) :
    h.Recenter.difference_to_6DoF = h.difference_to_6DoF := rfl

/-- The accelerometer callback never changes the drift-correction
quaternion. -/
theorem onAccel_difference (h : HeadTracker) (event : AccelerometerData) :
    (h.OnAccelerometerData event).difference_to_6DoF = h.difference_to_6DoF := by
  by_cases ht : h.is_tracking <;> simp [HeadTracker.OnAccelerometerData, ht]

/-- The gyroscope callback never changes the drift-correction quaternion. -/
theorem onGyro_difference (h : HeadTracker) (event : GyroscopeData) :
    (h.OnGyroscopeData event).difference_to_6DoF = h.difference_to_6DoF := by
  by_cases ht : h.is_tracking <;> simp [HeadTracker.OnGyroscopeData, ht]

/-- AddSixDoFData either leaves the drift-correction quaternion unchanged
or replaces it by the normalization of a quaternion whose x and z
components are zero. -/
theorem addSixDoF_difference (h : HeadTracker) (ts : Int) (pos : Vec3)
    (orientation : Quat) :
    (h.AddSixDoFData ts pos orientation).difference_to_6DoF = h.difference_to_6DoF ∨
    ∃ y w : ℝ, (h.AddSixDoFData ts pos orientation).difference_to_6DoF =
      Quat.normalize ⟨0, y, 0, w⟩ := by
  unfold HeadTracker.AddSixDoFData
  split
  · dsimp only
    split
    · exact Or.inr ⟨_, _, rfl⟩
    · exact Or.inl rfl
  · exact Or.inl rfl

/-- When the tracking flag is false, AddSixDoFData leaves the
drift-correction quaternion unchanged. -/
theorem addSixDoF_difference_of_not_tracking (h : HeadTracker) (ts : Int)
    (pos : Vec3) (orientation : Quat) (hnt : h.is_tracking = false) :
    (h.AddSixDoFData ts pos orientation).difference_to_6DoF =
      h.difference_to_6DoF := by
  simp [HeadTracker.AddSixDoFData, hnt]

/-- When the two buffers are not both valid after recording the sample,
AddSixDoFData leaves the drift-correction quaternion unchanged. -/
theorem addSixDoF_difference_of_invalid (h : HeadTracker) (ts : Int)
    (pos : Vec3) (orientation : Quat)
    (hinv : ¬ ((h.position_data.AddSample pos ts).IsValid ∧
      h.rotation_data.IsValid)) :
    (h.AddSixDoFData ts pos orientation).difference_to_6DoF =
      h.difference_to_6DoF := by
  unfold HeadTracker.AddSixDoFData
  split
  · dsimp only
    rw [if_neg hinv]
  · rfl

/-- Normalizing a quaternion with zero x and z components gives zero x and
z components and either a unit quaternion or the zero quaternion. -/
theorem drift_normalize_yaw_only (y w : ℝ) :
    (Quat.normalize ⟨0, y, 0, w⟩).x = 0 ∧ (Quat.normalize ⟨0, y, 0, w⟩).z = 0 ∧
    (Quat.normSq (Quat.normalize ⟨0, y, 0, w⟩) = 1 ∨
      Quat.normalize ⟨0, y, 0, w⟩ = Quat.zeroQ) := by
  refine ⟨by simp [Quat.normalize, Quat.scale], by simp [Quat.normalize, Quat.scale], ?_⟩
  by_cases h0 : Quat.normSq ⟨0, y, 0, w⟩ = 0
  · right
    have hy : y = 0 := by
      have := h0
      unfold Quat.normSq at this
      nlinarith [sq_nonneg y, sq_nonneg w]
    have hw : w = 0 := by
      have := h0
      unfold Quat.normSq at this
      nlinarith [sq_nonneg y, sq_nonneg w]
    subst hy
    subst hw
    ext <;> simp [Quat.normalize, Quat.scale, Quat.zeroQ]
  · exact Or.inl (Quat.normSq_normalize h0)

/-- The drift-correction invariant of every reachable state: x and z
vanish and the quaternion is a unit quaternion or (degenerately) zero. -/
theorem drift_invariant (h : HeadTracker) (hr : Reachable h) :
    h.difference_to_6DoF.x = 0 ∧ h.difference_to_6DoF.z = 0 ∧
    (Quat.normSq h.difference_to_6DoF = 1 ∨ h.difference_to_6DoF = Quat.zeroQ) := by
  induction hr with
  | init =>
    refine ⟨rfl, rfl, Or.inl ?_⟩
    norm_num [HeadTracker.init, Quat.one, Quat.normSq]
  | resume hr ih => rw [resume_difference]; exact ih
  | pause hr ih => rw [pause_difference]; exact ih
  | recenter hr ih => rw [recenter_difference]; exact ih
  | accel event hr ih => rw [onAccel_difference]; exact ih
  | gyro event hr ih => rw [onGyro_difference]; exact ih
  | addSixDoF ts pos orientation hr ih =>
    rcases addSixDoF_difference _ ts pos orientation with he | ⟨y, w, he⟩
    · rw [he]; exact ih
    · rw [he]; exact drift_normalize_yaw_only y w
  | getPose latest pr anm ts v hr ih => rw [getPose_difference]; exact ih

/-- C3 amended: the drift-correction quaternion is touched by no operation
other than AddSixDoFData, and by AddSixDoFData only when the tracking flag
is set and both buffers are valid after the sample is recorded; in every
reachable state its x and z components are zero and it is either
normalized or the zero quaternion (the zero arises exactly from the
degenerate update in which the yaw-plane components of the relative
rotation both vanish, where the normalizing SetQuaternion call has no
unit result to produce). -/
theorem drift_correction_yaw_only (h : HeadTracker) (hr : Reachable h) :
    (h.difference_to_6DoF.x = 0 ∧ h.difference_to_6DoF.z = 0 ∧
      (Quat.normSq h.difference_to_6DoF = 1 ∨ h.difference_to_6DoF = Quat.zeroQ)) ∧
    (∀ (latest : RotationState) (pr : Int → Quat) (anm : Quat → ℝ → Vec3)
      (ts : Int) (v : CardboardViewportOrientation),
      ((h.GetPose latest pr anm ts v).1).difference_to_6DoF = h.difference_to_6DoF) ∧
    h.Resume.difference_to_6DoF = h.difference_to_6DoF ∧
    h.Pause.difference_to_6DoF = h.difference_to_6DoF ∧
    h.Recenter.difference_to_6DoF = h.difference_to_6DoF ∧
    (∀ event, (h.OnAccelerometerData event).difference_to_6DoF =
      h.difference_to_6DoF) ∧
    (∀ event, (h.OnGyroscopeData event).difference_to_6DoF =
      h.difference_to_6DoF) ∧
    (∀ (ts : Int) (pos : Vec3) (orientation : Quat), h.is_tracking = false →
      (h.AddSixDoFData ts pos orientation).difference_to_6DoF =
        h.difference_to_6DoF) ∧
    (∀ (ts : Int) (pos : Vec3) (orientation : Quat),
      ¬ ((h.position_data.AddSample pos ts).IsValid ∧ h.rotation_data.IsValid) →
      (h.AddSixDoFData ts pos orientation).difference_to_6DoF =
        h.difference_to_6DoF) :=
  ⟨drift_invariant h hr,
   fun latest pr anm ts v => getPose_difference h latest pr anm ts v,
   resume_difference h,
   pause_difference h,
   recenter_difference h,
   fun event => onAccel_difference h event,
   fun event => onGyro_difference h event,
   fun ts pos orientation hnt =>
     addSixDoF_difference_of_not_tracking h ts pos orientation hnt,
   fun ts pos orientation hinv =>
     addSixDoF_difference_of_invalid h ts pos orientation hinv⟩

/-- Witness for C3's amended theorem at the reachable constructor state. -/
theorem drift_correction_yaw_only_witness :
    Reachable HeadTracker.init ∧
    (HeadTracker.init.difference_to_6DoF.x = 0 ∧
     HeadTracker.init.difference_to_6DoF.z = 0 ∧
     (Quat.normSq HeadTracker.init.difference_to_6DoF = 1 ∨
       HeadTracker.init.difference_to_6DoF = Quat.zeroQ)) ∧
    HeadTracker.init.Recenter.difference_to_6DoF =
      HeadTracker.init.difference_to_6DoF :=
  ⟨Reachable.init,
   (drift_correction_yaw_only HeadTracker.init Reachable.init).1,
   (drift_correction_yaw_only HeadTracker.init Reachable.init).2.2.2.2.1⟩

/-- The portrait sensor-to-display entry is the identity quaternion. -/
theorem s2d_portrait : sensorToDisplayRotations .portrait = Quat.one := by
  unfold sensorToDisplayRotations Quat.fromQuaternion
  apply Quat.normalize_of_normSq_one
  norm_num [Quat.normSq, Quat.one]

/-- The portrait EKF-to-tracker entry is the x-axis quarter rotation. -/
theorem ekf_portrait : ekfToHeadTrackerRotations .portrait =
    ⟨Real.sqrt 2 / 2, 0, 0, Real.sqrt 2 / 2⟩ := by
  unfold ekfToHeadTrackerRotations Quat.fromQuaternion
  apply Quat.normalize_of_normSq_one
  norm_num [Quat.normSq, div_pow, Real.sq_sqrt]

/-- A unit quaternion literal on the w axis normalizes to itself. -/
theorem fq_one : Quat.fromQuaternion ⟨0, 0, 0, 1⟩ = Quat.one := by
  unfold Quat.fromQuaternion
  apply Quat.normalize_of_normSq_one
  norm_num [Quat.normSq]

/-- A unit quaternion literal on the x axis normalizes to itself. -/
theorem fq_x : Quat.fromQuaternion ⟨1, 0, 0, 0⟩ = ⟨1, 0, 0, 0⟩ := by
  unfold Quat.fromQuaternion
  apply Quat.normalize_of_normSq_one
  norm_num [Quat.normSq]

/-- The identity quaternion is its own conjugate. -/
theorem conj_one : Quat.conjugate Quat.one = Quat.one := by
  ext <;> simp [Quat.conjugate, Quat.one]

/-- The zero quaternion normalizes to itself (junk-value division). -/
theorem normalize_zeroQ : Quat.normalize Quat.zeroQ = Quat.zeroQ := by
  ext <;> simp [Quat.normalize, Quat.scale, Quat.zeroQ]

/-- Predicted rotation fed to the first recorded GetPose call of the C3
run. -/
def c3p0 : Quat := ⟨-(Real.sqrt 2 / 2), 0, 0, Real.sqrt 2 / 2⟩

/-- Predicted rotation fed to the second recorded GetPose call of the C3
run. -/
def c3p1 : Quat := ⟨Real.sqrt 2 / 2, 0, 0, Real.sqrt 2 / 2⟩

/-- Filter rotation state used by the C3 run. -/
def c3rs : RotationState := ⟨0, Quat.one⟩

/-- Neck model used by the C3 run. -/
def c3anm : Quat → ℝ → Vec3 := fun _ _ => Vec3.zero

/-- Display rotation of the first C3 GetPose call: the identity. -/
theorem c3_rot0 : HeadTracker.GetRotation (fun _ => c3p0) .portrait 0 = Quat.one := by
  unfold HeadTracker.GetRotation
  rw [s2d_portrait, ekf_portrait, Quat.one_mulQ]
  unfold c3p0
  have h2 : Real.sqrt 2 * Real.sqrt 2 = 2 := Real.mul_self_sqrt (by norm_num)
  ext <;> simp [Quat.mul, Quat.one]
  nlinarith [h2]

/-- Display rotation of the second C3 GetPose call: the x-axis half
rotation. -/
theorem c3_rot1 : HeadTracker.GetRotation (fun _ => c3p1) .portrait 100 =
    ⟨1, 0, 0, 0⟩ := by
  unfold HeadTracker.GetRotation
  rw [s2d_portrait, ekf_portrait, Quat.one_mulQ]
  unfold c3p1
  have h2 : Real.sqrt 2 * Real.sqrt 2 = 2 := Real.mul_self_sqrt (by norm_num)
  ext <;> simp [Quat.mul]
  nlinarith [h2]

/-- Slerp at fraction one between orthogonal unit quaternions returns the
second sample. -/
theorem c3_slerp : slerp Quat.one ⟨1, 0, 0, 0⟩ 1 = ⟨1, 0, 0, 0⟩ := by
  unfold slerp
  have hdot : Quat.dot Quat.one ⟨1, 0, 0, 0⟩ = 0 := by
    norm_num [Quat.dot, Quat.one]
  rw [hdot, Real.arccos_zero]
  rw [if_neg (by rw [Real.sin_pi_div_two]; norm_num)]
  ext <;>
    simp [Quat.add, Quat.scale, Quat.one, Real.sin_pi_div_two]

/-- Interpolating the two-sample C3 rotation buffer at the newest
timestamp returns the newest sample. -/
theorem c3_interp : RingBuffer.GetInterpolatedForTimeStamp
    (⟨10, [⟨⟨1, 0, 0, 0⟩, 100⟩, ⟨Quat.one, 0⟩]⟩ : RingBuffer Quat) 100 =
    ⟨1, 0, 0, 0⟩ := by
  unfold RingBuffer.GetInterpolatedForTimeStamp
  dsimp only
  rw [if_pos (Or.inl (by norm_num))]
  rw [show timeFraction 100 0 100 = 1 from by unfold timeFraction; norm_num]
  exact c3_slerp

/-- C3 run, state after Resume and the first GetPose call. -/
def c3S1 : HeadTracker :=
  ⟨true, [], ⟨0, 0, Vec3.zero⟩, true, true, ⟨10, [⟨Quat.one, 0⟩]⟩, ⟨3, []⟩,
   Quat.one, .portrait, true⟩

/-- C3 run, state after the second GetPose call. -/
def c3S2 : HeadTracker :=
  ⟨true, [], ⟨0, 0, Vec3.zero⟩, true, true,
   ⟨10, [⟨⟨1, 0, 0, 0⟩, 100⟩, ⟨Quat.one, 0⟩]⟩, ⟨3, []⟩,
   Quat.one, .portrait, true⟩

/-- C3 run, state after the first AddSixDoFData call. -/
def c3S3 : HeadTracker :=
  ⟨true, [], ⟨0, 0, Vec3.zero⟩, true, true,
   ⟨10, [⟨⟨1, 0, 0, 0⟩, 100⟩, ⟨Quat.one, 0⟩]⟩, ⟨3, [⟨Vec3.zero, 50⟩]⟩,
   Quat.one, .portrait, true⟩

/-- C3 run, state after the second AddSixDoFData call: the drift update
has fired and produced the zero quaternion. -/
def c3S4 : HeadTracker :=
  ⟨true, [], ⟨0, 0, Vec3.zero⟩, true, true,
   ⟨10, [⟨⟨1, 0, 0, 0⟩, 100⟩, ⟨Quat.one, 0⟩]⟩,
   ⟨3, [⟨Vec3.zero, 100⟩, ⟨Vec3.zero, 50⟩]⟩,
   Quat.zeroQ, .portrait, true⟩

/-- First C3 step evaluated. -/
theorem c3_e1 : (HeadTracker.init.Resume.GetPose c3rs (fun _ => c3p0) c3anm 0
    .portrait).1 = c3S1 := by
  rw [HeadTracker.GetPose_eq, c3_rot0]
  simp [HeadTracker.Resume, HeadTracker.RegisterCallbacks, HeadTracker.init,
    c3S1, RingBuffer.AddSample, rotation_samples, position_samples]

/-- Second C3 step evaluated. -/
theorem c3_e2 : (c3S1.GetPose c3rs (fun _ => c3p1) c3anm 100 .portrait).1 =
    c3S2 := by
  rw [HeadTracker.GetPose_eq, c3_rot1]
  simp [c3S1, c3S2, RingBuffer.AddSample]

/-- Third C3 step evaluated: one position sample only, no drift update. -/
theorem c3_e3 : c3S2.AddSixDoFData 50 Vec3.zero ⟨0, 0, 0, 1⟩ = c3S3 := by
  unfold HeadTracker.AddSixDoFData
  rw [if_pos (show c3S2.is_tracking = true from rfl)]
  dsimp only
  rw [if_neg ?hc]
  case hc =>
    intro hb
    have := hb.1
    unfold RingBuffer.IsValid at this
    simp [c3S2, RingBuffer.AddSample] at this
  simp [c3S2, c3S3, RingBuffer.AddSample]

/-- The relative rotation computed by the final C3 drift update. -/
theorem c3_hDq :
    Quat.fromQuaternion (c3S3.rotation_data.GetInterpolatedForTimeStamp 100) *
      Quat.conjugate (Quat.fromQuaternion ⟨0, 0, 0, 1⟩) = ⟨1, 0, 0, 0⟩ := by
  have hbuf : c3S3.rotation_data =
      ⟨10, [⟨⟨1, 0, 0, 0⟩, 100⟩, ⟨Quat.one, 0⟩]⟩ := rfl
  rw [hbuf, c3_interp, fq_x, fq_one, conj_one, Quat.mul_oneQ]

/-- Fourth C3 step evaluated: the drift update fires and stores the
normalization of the zero quaternion, which is the zero quaternion. -/
theorem c3_e4 : c3S3.AddSixDoFData 100 Vec3.zero ⟨0, 0, 0, 1⟩ = c3S4 := by
  unfold HeadTracker.AddSixDoFData
  rw [if_pos (show c3S3.is_tracking = true from rfl)]
  dsimp only
  have hpd : (c3S3.position_data.AddSample Vec3.zero 100).IsValid := by
    unfold RingBuffer.IsValid
    simp [c3S3, RingBuffer.AddSample]
  have hrot : c3S3.rotation_data.IsValid := by
    unfold RingBuffer.IsValid
    simp [c3S3]
  rw [if_pos ⟨hpd, hrot⟩]
  rw [c3_hDq]
  have hq : Quat.normalize ⟨0, (⟨1, 0, 0, 0⟩ : Quat).y, 0,
      (⟨1, 0, 0, 0⟩ : Quat).w⟩ = Quat.zeroQ := by
    dsimp only
    exact normalize_zeroQ
  rw [hq]
  simp [c3S3, c3S4, RingBuffer.AddSample]

/-- C3 counterexample: a reachable run (Resume, two GetPose calls with
distinct display rotations, two AddSixDoFData calls whose external
orientation is the identity) whose final drift update stores the zero
quaternion: the stored drift-correction value is not normalized (its
squared norm is 0, not 1), refuting "after every update ... it is
normalized". -/
theorem drift_zero_counterexample :
    ((((HeadTracker.init.Resume.GetPose c3rs (fun _ => c3p0) c3anm 0
        .portrait).1.GetPose c3rs (fun _ => c3p1) c3anm 100
        .portrait).1.AddSixDoFData 50 Vec3.zero
        ⟨0, 0, 0, 1⟩).AddSixDoFData 100 Vec3.zero
        ⟨0, 0, 0, 1⟩).difference_to_6DoF = Quat.zeroQ ∧
    Quat.normSq Quat.zeroQ ≠ 1 ∧
    Quat.zeroQ ≠ Quat.one := by
  refine ⟨?_, by norm_num [Quat.normSq, Quat.zeroQ], ?_⟩
  · rw [c3_e1, c3_e2, c3_e3, c3_e4]
    rfl
  · intro hcontra
    have := congrArg Quat.w hcontra
    norm_num [Quat.zeroQ, Quat.one] at this

end

end Cardboard
